import Mathlib

/-!
A shallow embedding of the classifier core of the PhotoLense repository
(`src-tauri/src`): the model lifecycle manager, the classification and
indexing pipeline, the inference post-processing and the embedding
similarity index.  Rust machine floats are modelled as rationals where the
claims are order/structure-level and as reals where a square root is
involved; the external collaborators (filesystem, network, the SQLite and
ONNX engines) are modelled as explicit environments passed to each
operation, mirroring exactly the branches the source takes on them.
-/

namespace PhotoLense

/-- Model variants, from `ModelType` in
`src-tauri/src/services/classifier/model_manager.rs`. -/
inductive ModelType where
  | Base
  | Large
  | MobileNetV3Large
deriving DecidableEq, Repr

/-- `ModelType::crop_size`. -/
def ModelType.crop_size : ModelType → Nat
  | .Base | .Large => 384
  | .MobileNetV3Large => 224

/-- The mutable fields of `ModelManager` (model_manager.rs, lines 67-78).
The ONNX `Session` is opaque to the manager, so a loaded session is
modelled as an abstract handle (`Nat`). -/
structure MMState where
  labels : Option (List String)
  model : Option Nat
  loading : Bool
  error : Option String
  current_type : ModelType
  current_use_gpu : Bool
  loaded_type : Option ModelType
deriving DecidableEq, Repr

/-- `ModelManager::is_ready`: the model slot holds a session. -/
def MMState.is_ready (st : MMState) : Bool :=
  st.model.isSome

/-- Environment for `do_load_model`'s read of the config file: the file
read can fail, the JSON parse can fail, the `id2label` field can be
missing or not an object, or it yields a key/value object.  Non-string
values are folded into the environment as the string `"unknown"`, exactly
what `v.as_str().unwrap_or("unknown")` produces. -/
inductive ConfigRead where
  | read_err (msg : String)
  | parse_err (msg : String)
  | no_id2label
  | id2label (entries : List (String × String))
deriving DecidableEq, Repr

/-- One-or-more ASCII digits accumulated in base 10, for modelling Rust's
`usize::from_str`. -/
def parse_digits : List Char → Nat → Option Nat
  | [], acc => some acc
  | c :: rest, acc =>
    if c.isDigit then parse_digits rest (10 * acc + (c.toNat - 48)) else none

/-- Rust `str::parse::<usize>()`: an optional leading `+`, then one or
more ASCII digits (machine-width overflow is not modelled; label indices
are small). -/
def parse_usize (cs : List Char) : Option Nat :=
  match cs with
  | [] => none
  | '+' :: rest => if rest = [] then none else parse_digits rest 0
  | _ => parse_digits cs 0

/-- `k.parse::<usize>().unwrap_or(0)` (model_manager.rs line 263). -/
def parse_usize_or_zero (s : String) : Nat :=
  (parse_usize s.data).getD 0

/-- Building the ordered label list from the `id2label` object
(model_manager.rs lines 260-269): parse each key as an integer (defaulting
to 0), stably sort by that key, keep the values. -/
def build_labels (entries : List (String × String)) : List String :=
  ((entries.map (fun kv => (parse_usize_or_zero kv.1, kv.2))).mergeSort
    (fun a b => decide (a.1 ≤ b.1))).map (fun kv => kv.2)

/-- `ModelManager::do_load_model` (model_manager.rs lines 241-316).  The
config read/parse and the session construction are environment inputs;
the function writes the label slot as soon as the label list is built and
writes the model slot only when session construction succeeded. -/
def do_load_model (st : MMState) (cfg : ConfigRead)
    (session_build : Except String Nat) : MMState × Except String Unit :=
  match cfg with
  | .read_err m => (st, .error ("Failed to read config file: " ++ m))
  | .parse_err m => (st, .error ("Failed to parse config JSON: " ++ m))
  | .no_id2label => (st, .error "Config missing id2label field")
  | .id2label entries =>
    let st1 := { st with labels := some (build_labels entries) }
    match session_build with
    | .error m => (st1, .error m)
    | .ok s => ({ st1 with model := some s }, .ok ())

/-- `ModelManager::load_model` (model_manager.rs lines 203-239).  Returns
the new manager state, the call's result, and the number of load attempts
(invocations of `do_load_model`) the call performed. -/
def load_model (st : MMState) (use_gpu : Bool) (cfg : ConfigRead)
    (session_build : Except String Nat) :
    MMState × Except String Unit × Nat :=
  let needs_reload : Bool :=
    decide (st.current_use_gpu ≠ use_gpu) || !st.is_ready ||
      decide (st.loaded_type ≠ some st.current_type)
  if needs_reload = false then
    (st, .ok (), 0)
  else if st.loading then
    (st, .error "Model is already loading", 0)
  else
    let st1 := { st with loading := true, error := none }
    let res := do_load_model st1 cfg session_build
    let st3 := { res.1 with loading := false }
    match res.2 with
    | .error e => ({ st3 with error := some e }, .error e, 1)
    | .ok _ =>
      ({ st3 with
          current_use_gpu := use_gpu,
          loaded_type := some st3.current_type }, .ok (), 1)

/-- After a successful `load_model` call the no-op precondition of the
next identical call holds: a session is present, the loaded variant is
the selected one and the recorded accelerator mode is the requested one. -/
theorem load_model_ok_invariant (st : MMState) (use_gpu : Bool) (cfg : ConfigRead)
    (b : Except String Nat)
    (h : (load_model st use_gpu cfg b).2.1 = .ok ()) :
    (load_model st use_gpu cfg b).1.is_ready = true ∧
    (load_model st use_gpu cfg b).1.loaded_type =
      some (load_model st use_gpu cfg b).1.current_type ∧
    (load_model st use_gpu cfg b).1.current_use_gpu = use_gpu := by
  by_cases hg : st.current_use_gpu = use_gpu <;>
    by_cases hm : st.model.isSome = true <;>
    by_cases hlt : st.loaded_type = some st.current_type <;>
    cases hl : st.loading <;> cases cfg <;> cases b <;>
    simp_all [load_model, do_load_model, MMState.is_ready]

/-- A `load_model` call whose no-op precondition holds returns success
immediately, performs no load attempt and leaves the state unchanged. -/
theorem load_model_noop (st : MMState) (use_gpu : Bool) (cfg : ConfigRead)
    (b : Except String Nat) (h1 : st.is_ready = true)
    (h2 : st.loaded_type = some st.current_type)
    (h3 : st.current_use_gpu = use_gpu) :
    load_model st use_gpu cfg b = (st, .ok (), 0) := by
  simp [load_model, MMState.is_ready] at h1 ⊢
  simp [h1, h2, h3]

/-- C1, counterexample: a `load_model` call rejected because another load
is already in flight fails with "Model is already loading", yet the sticky
error slot is left at `none` rather than being set to that failure
message — refuting the claim that every failing `load_model` call sets the
sticky error to the failure message. -/
theorem c1_busy_path_counterexample :
    (load_model ⟨none, some 7, true, none, .Base, true, none⟩ true
        .no_id2label (.error "x")).2.1 = .error "Model is already loading" ∧
    (load_model ⟨none, some 7, true, none, .Base, true, none⟩ true
        .no_id2label (.error "x")).1.error = none := by
  exact ⟨rfl, rfl⟩

/-- C1, amended: for every `load_model(use_gpu)` call that fails while no
other load is in flight, the previously loaded session (if any) is left
untouched in the model slot, `is_ready` still reports true if a session
was loaded before, and the sticky error is set to the failure message.
(The busy-rejection path fails without touching the sticky error.) -/
theorem load_model_failure_graceful (st : MMState) (use_gpu : Bool)
    (cfg : ConfigRead) (b : Except String Nat) (e : String)
    (hl : st.loading = false)
    (he : (load_model st use_gpu cfg b).2.1 = .error e) :
    (load_model st use_gpu cfg b).1.model = st.model ∧
    (st.is_ready = true → (load_model st use_gpu cfg b).1.is_ready = true) ∧
    (load_model st use_gpu cfg b).1.error = some e := by
  by_cases hg : st.current_use_gpu = use_gpu <;>
    by_cases hm : st.model.isSome = true <;>
    by_cases hlt : st.loaded_type = some st.current_type <;>
    cases cfg <;> cases b <;>
    simp_all [load_model, do_load_model, MMState.is_ready]

/-- C1 witness: a failed load with a config missing `id2label`, from a
state holding session 7, keeps session 7 servable and records the
failure message. -/
theorem load_model_failure_graceful_witness :
    (load_model ⟨none, some 7, false, none, .Base, true, none⟩ true
        .no_id2label (.error "x")).1.model = some 7 ∧
    (load_model ⟨none, some 7, false, none, .Base, true, none⟩ true
        .no_id2label (.error "x")).1.is_ready = true ∧
    (load_model ⟨none, some 7, false, none, .Base, true, none⟩ true
        .no_id2label (.error "x")).1.error =
      some "Config missing id2label field" := by
  have h := load_model_failure_graceful
    ⟨none, some 7, false, none, .Base, true, none⟩ true .no_id2label
    (.error "x") "Config missing id2label field" rfl rfl
  exact ⟨h.1, h.2.1 rfl, h.2.2⟩

/-- C7: a `load_model(use_gpu)` call made when a session is present, the
loaded variant equals the selected variant and the recorded accelerator
mode equals `use_gpu` is a no-op that returns success with zero load
attempts and no state mutation; and after any successful call, a second
identical call is such a no-op — so two successive identical calls with
no failure between them perform exactly the first call's (at most one)
load attempt. -/
theorem load_model_idempotent (st : MMState) (use_gpu : Bool)
    (cfg cfg2 : ConfigRead) (b b2 : Except String Nat) :
    (st.is_ready = true → st.loaded_type = some st.current_type →
      st.current_use_gpu = use_gpu →
      load_model st use_gpu cfg b = (st, .ok (), 0)) ∧
    ((load_model st use_gpu cfg b).2.1 = .ok () →
      load_model (load_model st use_gpu cfg b).1 use_gpu cfg2 b2 =
        ((load_model st use_gpu cfg b).1, .ok (), 0)) := by
  refine ⟨fun h1 h2 h3 => load_model_noop st use_gpu cfg b h1 h2 h3, fun hok => ?_⟩
  obtain ⟨h1, h2, h3⟩ := load_model_ok_invariant st use_gpu cfg b hok
  exact load_model_noop _ use_gpu cfg2 b2 h1 h2 h3

/-- C7 witness: from a state already loaded as (Base, gpu), the call is the
identity with zero attempts, and repeating a successful call is a no-op. -/
theorem load_model_idempotent_witness :
    load_model ⟨some ["a"], some 3, false, none, .Base, true, some .Base⟩
        true .no_id2label (.error "x") =
      (⟨some ["a"], some 3, false, none, .Base, true, some .Base⟩,
        .ok (), 0) ∧
    load_model (load_model ⟨some ["a"], some 3, false, none, .Base, true,
        some .Base⟩ true .no_id2label (.error "x")).1 true (ConfigRead.read_err "z")
        (.error "y") =
      ((load_model ⟨some ["a"], some 3, false, none, .Base, true,
        some .Base⟩ true .no_id2label (.error "x")).1, .ok (), 0) := by
  have h := load_model_idempotent
    ⟨some ["a"], some 3, false, none, .Base, true, some .Base⟩ true
    .no_id2label (ConfigRead.read_err "z") (.error "x") (.error "y")
  exact ⟨h.1 rfl rfl rfl, h.2 rfl⟩

/-- C10: if a `load_model` attempt (from an idle state that needs a
reload) reads and parses the label map successfully but session
construction fails, the label slot has already been replaced by the
attempted variant's labels while the model slot still holds the previous
session, and the call fails with the construction error. -/
theorem load_model_partial_label_update (st : MMState) (use_gpu : Bool)
    (entries : List (String × String)) (msg : String)
    (hl : st.loading = false)
    (hr : st.current_use_gpu ≠ use_gpu ∨ st.model = none ∨
      st.loaded_type ≠ some st.current_type) :
    (load_model st use_gpu (.id2label entries) (.error msg)).1.labels =
      some (build_labels entries) ∧
    (load_model st use_gpu (.id2label entries) (.error msg)).1.model =
      st.model ∧
    (load_model st use_gpu (.id2label entries) (.error msg)).2.1 =
      .error msg := by
  by_cases hg : st.current_use_gpu = use_gpu <;>
    by_cases hm : st.model.isSome = true <;>
    by_cases hlt : st.loaded_type = some st.current_type <;>
    simp_all [load_model, do_load_model, MMState.is_ready,
      Option.not_isSome_iff_eq_none]

/-- C10 witness: a failed session build after parsing
`{"1":"dog","0":"cat"}` leaves session 7 in place but the labels already
replaced by ["cat", "dog"]. -/
theorem load_model_partial_label_update_witness :
    (load_model ⟨some ["old"], some 7, false, none, .Base, true,
        some .Large⟩ true (.id2label [("1", "dog"), ("0", "cat")])
        (.error "Failed to load ONNX model: boom")).1.labels =
      some ["cat", "dog"] ∧
    (load_model ⟨some ["old"], some 7, false, none, .Base, true,
        some .Large⟩ true (.id2label [("1", "dog"), ("0", "cat")])
        (.error "Failed to load ONNX model: boom")).1.model = some 7 ∧
    (load_model ⟨some ["old"], some 7, false, none, .Base, true,
        some .Large⟩ true (.id2label [("1", "dog"), ("0", "cat")])
        (.error "Failed to load ONNX model: boom")).2.1 =
      .error "Failed to load ONNX model: boom" := by
  have h := load_model_partial_label_update
    ⟨some ["old"], some 7, false, none, .Base, true, some .Large⟩ true
    [("1", "dog"), ("0", "cat")] "Failed to load ONNX model: boom" rfl
    (Or.inr (Or.inr (by simp)))
  refine ⟨?_, h.2.1, h.2.2⟩
  rw [h.1]
  simp [build_labels, List.mergeSort, List.merge]
  decide

/-- `ModelManager::is_downloaded` (model_manager.rs lines 125-127): both
the weight file and the config file of the current variant exist on disk.
A file on disk is modelled as `Option (List Nat)` (its bytes, or `none`
when absent). -/
def is_downloaded (model_file config_file : Option (List Nat)) : Bool :=
  model_file.isSome && config_file.isSome

/-- The chunk loop of `download_file` (model_manager.rs lines 356-380):
for each received chunk the cancellation flag is checked first (deleting
the partial file and failing on cancellation), then a chunk-level network
error propagates, otherwise the chunk is appended to the destination
file.  `cancel i` is the value the shared flag is observed to have at the
i-th chunk; progress events do not affect the file and are omitted. -/
def download_loop (cancel : Nat → Bool) (file : List Nat) (i : Nat) :
    List (Except String (List Nat)) → Option (List Nat) × Except String Unit
  | [] => (some file, .ok ())
  | c :: rest =>
    if cancel i then (none, .error "Download cancelled")
    else
      match c with
      | .error e => (some file, .error e)
      | .ok bytes => download_loop cancel (file ++ bytes) (i + 1) rest

/-- `download_file` (model_manager.rs lines 333-384): the destination file
is created empty, then the chunk stream is consumed. -/
def download_file (cancel : Nat → Bool)
    (chunks : List (Except String (List Nat))) :
    Option (List Nat) × Except String Unit :=
  download_loop cancel [] 0 chunks

/-- If every remaining chunk is intact and the flag is observed set at
some remaining chunk, the loop deletes the file and fails. -/
theorem download_loop_cancelled (cancel : Nat → Bool) :
    ∀ (chunks : List (Except String (List Nat))) (file : List Nat) (i : Nat),
    (∀ c ∈ chunks, c.isOk = true) →
    (∃ j, j < chunks.length ∧ cancel (i + j) = true) →
    download_loop cancel file i chunks = (none, .error "Download cancelled") := by
  intro chunks
  induction chunks with
  | nil =>
    intro file i _ hj
    obtain ⟨j, hj1, _⟩ := hj
    simp at hj1
  | cons c rest ih =>
    intro file i hok hj
    by_cases hc : cancel i = true
    · simp [download_loop, hc]
    · obtain ⟨j, hj1, hj2⟩ := hj
      cases j with
      | zero => exact absurd (by simpa using hj2) hc
      | succ j =>
        have hcok : c.isOk = true := hok c (List.mem_cons_self c rest)
        obtain ⟨bytes, hb⟩ : ∃ b, c = .ok b := by
          cases c with
          | ok b => exact ⟨b, rfl⟩
          | error e => simp [Except.isOk, Except.toBool] at hcok
        subst hb
        simp only [download_loop]
        rw [if_neg hc]
        exact ih (file ++ bytes) (i + 1)
          (fun x hx => hok x (List.mem_cons_of_mem _ hx))
          ⟨j, by simpa using hj1, by simpa [Nat.add_assoc, Nat.add_comm 1 j] using hj2⟩

/-- C8: if the cancellation flag is observed set during a download of
intact chunks, the partially written destination file is deleted, the
download returns an error, and `is_downloaded` reports false afterward,
whichever of the two model files was being written. -/
theorem download_cancel_cleans_up (cancel : Nat → Bool)
    (chunks : List (Except String (List Nat)))
    (hok : ∀ c ∈ chunks, c.isOk = true)
    (hcancel : ∃ j, j < chunks.length ∧ cancel j = true) :
    download_file cancel chunks = (none, .error "Download cancelled") ∧
    (∀ other, is_downloaded (download_file cancel chunks).1 other = false ∧
      is_downloaded other (download_file cancel chunks).1 = false) := by
  have h : download_file cancel chunks = (none, .error "Download cancelled") := by
    refine download_loop_cancelled cancel chunks [] 0 hok ?_
    simpa using hcancel
  refine ⟨h, fun other => ?_⟩
  rw [h]
  simp [is_downloaded]

/-- C8 witness: a two-chunk download whose flag turns on at the second
chunk ends with the file removed and a cancellation error. -/
theorem download_cancel_cleans_up_witness :
    download_file (fun i => decide (1 ≤ i)) [.ok [10], .ok [20]] =
      (none, .error "Download cancelled") ∧
    is_downloaded
      (download_file (fun i => decide (1 ≤ i)) [.ok [10], .ok [20]]).1
      (some [1]) = false := by
  have h := download_cancel_cleans_up (fun i => decide (1 ≤ i))
    [.ok [10], .ok [20]] (by decide) ⟨1, by decide, by decide⟩
  exact ⟨h.1, (h.2 (some [1])).2⟩

/-- An `indexing-progress` event as emitted by `run_indexing_task`
(`src-tauri/src/commands/filesystem.rs` lines 160-301); only the fields
the claim is about are kept: `current`, `total` and whether the payload
carries `done: true` (events without a `done` field carry `false`). -/
structure IdxEvent where
  current : Nat
  total : Nat
  done : Bool
deriving DecidableEq, Repr

/-- Whether an `Except` is an error, mirroring `if let Err(e) = ...`. -/
def except_is_err {α : Type} : Except String α → Bool
  | .error _ => true
  | .ok _ => false

/-- Environment for one background indexing run: the observations the
task makes of the model manager, the network and the database. -/
structure IndexEnv where
  downloaded : Bool
  download_result : Except String Unit
  ready : Bool
  load_result : Except String Unit
  labels : Option (List String)
  ensure_result : Except String Unit
  photos_result : Except String (List (Int × String))
deriving Repr

/-- The per-item progress events of the indexing loop (filesystem.rs
lines 284-291): after each item the counter is incremented and an event
without a `done` field is emitted when the count is a multiple of 5 or
equals the total.  Per-item preprocessing/inference/DB failures are
logged and change no event. -/
def per_item_events (total : Nat) : List IdxEvent :=
  (List.range total).filterMap (fun idx =>
    let current := idx + 1
    if current % 5 = 0 ∨ current = total then
      some ⟨current, total, false⟩
    else none)

/-- `run_indexing_task` (filesystem.rs lines 160-301), as the list of
`indexing-progress` events it emits before terminating, in order. -/
def run_indexing_task (env : IndexEnv) : List IdxEvent :=
  if env.downloaded = false && except_is_err env.download_result then
    [⟨0, 1, false⟩, ⟨0, 0, true⟩]
  else
    let ev1 : List IdxEvent := if env.downloaded then [] else [⟨0, 1, false⟩]
    if env.ready = false && except_is_err env.load_result then
      ev1 ++ [⟨0, 1, false⟩, ⟨0, 0, true⟩]
    else
      let ev2 := ev1 ++ (if env.ready then [] else [⟨0, 1, false⟩])
      match env.labels with
      | none => ev2
      | some _ =>
        if except_is_err env.ensure_result then ev2
        else
          match env.photos_result with
          | .error _ => ev2
          | .ok photos =>
            let total := photos.length
            if total = 0 then ev2 ++ [⟨0, 0, true⟩]
            else ev2 ++ per_item_events total ++ [⟨total, total, true⟩]

/-- The number of emitted events carrying `done: true`. -/
def done_count (evs : List IdxEvent) : Nat :=
  (evs.filter (fun e => e.done)).length

/-- The run passes the download stage and the load stage but then fails
before the indexing loop: labels unavailable, vector-table setup failure,
or unindexed-photo query failure. -/
def mid_failure (env : IndexEnv) : Bool :=
  (env.downloaded || !except_is_err env.download_result) &&
  (env.ready || !except_is_err env.load_result) &&
  (env.labels.isNone || except_is_err env.ensure_result ||
    except_is_err env.photos_result)

/-- No per-item progress event carries `done: true`. -/
theorem per_item_events_no_done (total : Nat) :
    (per_item_events total).filter (fun e => e.done) = [] := by
  rw [List.filter_eq_nil_iff]
  intro e he
  simp only [per_item_events, List.mem_filterMap, List.mem_range] at he
  obtain ⟨idx, _, hif⟩ := he
  by_cases h5 : (idx + 1) % 5 = 0 ∨ idx + 1 = total
  · rw [if_pos h5] at hif
    cases hif
    simp
  · rw [if_neg h5] at hif
    cases hif

/-- C9, counterexample: a run in which the model is already downloaded
and loaded but `get_labels` yields nothing terminates with no
`indexing-progress` event at all — in particular no `done: true` event —
refuting the claim that a final done event is emitted exactly once on
every termination path. -/
theorem indexing_done_counterexample :
    done_count (run_indexing_task
      ⟨true, .ok (), true, .ok (), none, .ok (), .ok []⟩) = 0 := by
  rfl

/-- C9, amended: a background indexing run emits a `done: true` event
exactly once on every termination path — download failure, load failure,
empty input and normal completion — except the paths that fail after the
model is ready but before the indexing loop (label retrieval, vector
table setup, or the unindexed-photo query), which terminate without any
done event. -/
theorem indexing_done_exactly_once (env : IndexEnv) :
    done_count (run_indexing_task env) =
      if mid_failure env then 0 else 1 := by
  obtain ⟨d, dr, r, lr, lab, er, pr⟩ := env
  cases d <;> cases r <;> cases dr <;> cases lr <;> cases lab <;>
    cases er <;> cases pr <;>
    simp [run_indexing_task, mid_failure, done_count, except_is_err,
      List.filter_append, per_item_events_no_done] <;>
    split_ifs <;>
    simp_all [List.filter_append, per_item_events_no_done]

/-- A label prediction (`models/classify_types.rs`): class name and
confidence.  The f32 confidence is modelled as a rational. -/
structure Prediction where
  class_name : String
  confidence : ℚ
deriving DecidableEq, Repr

/-- One entry of `classify_images`' result list
(`models/classify_types.rs` / commands/classifier.rs lines 242-247). -/
structure ClassifyResult where
  file_name : String
  file_path : String
  predictions : List Prediction
  moved_to : Option String
deriving DecidableEq, Repr

/-- The return payload of `classify_images`. -/
structure ClassifyProgress where
  current : Nat
  total : Nat
  current_file : String
  results : List ClassifyResult
deriving DecidableEq, Repr

/-- What preprocessing and inference did for one batch item
(commands/classifier.rs lines 142-182): preprocessing can fail, the model
slot can be observed empty, the inference call can fail (including with a
GPU device-removal signature — both error arms of the source produce the
same empty prediction list), or inference succeeds with raw predictions. -/
inductive InferOutcome where
  | preprocess_err (msg : String)
  | no_session
  | infer_err (msg : String)
  | ok (preds : List Prediction)
deriving DecidableEq, Repr

/-- Per-item filesystem observations for the organize branch
(commands/classifier.rs lines 187-216). -/
structure ItemEnv where
  outcome : InferOutcome
  create_dir_ok : Bool
  move_ok : Bool
deriving DecidableEq, Repr

/-- `top_class.chars().map(...)` name sanitisation followed by `trim`
(commands/classifier.rs lines 189-193): keep alphanumerics, space, dash
and underscore, replace everything else by an underscore. -/
def sanitize_folder_name (s : String) : String :=
  (String.map (fun c =>
    if c.isAlphanum || c = ' ' || c = '-' || c = '_' then c else '_') s).trim

/-- `img_path.file_name().unwrap_or_default()`: the path component after
the last separator. -/
def file_name_of (path : String) : String :=
  String.mk (path.data.foldl (fun acc c => if c = '/' then [] else acc ++ [c]) [])

/-- One iteration of the `par_iter().map(...)` closure of
`classify_images` (commands/classifier.rs lines 108-248).  `cancelled` is
the value of the shared cancellation flag this item observes before
starting work; a cancelled item returns the sentinel result with empty
strings.  The DB writes at the end of the closure do not affect the
returned value and are omitted. -/
def process_item_result (cancelled : Bool) (path : String)
    (min_confidence : ℚ) (organize : Bool) (base_dir : String)
    (env : ItemEnv) : ClassifyResult :=
  if cancelled then
    ⟨"", "", [], none⟩
  else
    let file_name := file_name_of path
    let predictions :=
      match env.outcome with
      | .preprocess_err _ => []
      | .no_session => []
      | .infer_err _ => []
      | .ok preds => preds.filter (fun p => min_confidence ≤ p.confidence)
    let moved_to :=
      if organize && !predictions.isEmpty then
        match predictions with
        | [] => none
        | p0 :: _ =>
          if env.create_dir_ok then
            if env.move_ok then
              some (base_dir ++ "/" ++ sanitize_folder_name p0.class_name
                ++ "/" ++ file_name)
            else none
          else none
      else none
    ⟨file_name, path, predictions, moved_to⟩

/-- The closure's Rust return type is `Result`, but every one of its exit
points is `Ok`. -/
def process_item (cancelled : Bool) (path : String) (min_confidence : ℚ)
    (organize : Bool) (base_dir : String) (env : ItemEnv) :
    Except String ClassifyResult :=
  .ok (process_item_result cancelled path min_confidence organize base_dir env)

/-- `collect::<Result<Vec<_>, _>>()` over the mapped items: the first
error aborts the collection. -/
def collect_results :
    List (Except String ClassifyResult) → Except String (List ClassifyResult)
  | [] => .ok []
  | .error e :: _ => .error e
  | .ok r :: rest =>
    match collect_results rest with
    | .error e => .error e
    | .ok rs => .ok (r :: rs)

/-- `classify_images` (commands/classifier.rs lines 61-274): ready check,
empty-folder early return, the per-item map, the removal of cancelled
sentinels, and the zero-completed cancellation error.  `cancel i` is the
flag value observed by item `i`; `cancel paths.length` is the value read
by the final `is_cancelled` check after the batch. -/
def classify_images (ready : Bool) (paths : List String)
    (cancel : Nat → Bool) (envs : Nat → ItemEnv) (min_confidence : ℚ)
    (organize : Bool) (base_dir : String) :
    Except String ClassifyProgress :=
  if ready = false then
    .error "Model not loaded. Call load_model first."
  else if paths.length = 0 then
    .ok ⟨0, 0, "", []⟩
  else
    match collect_results ((List.range paths.length).map (fun i =>
        process_item (cancel i) (paths.getD i "") min_confidence organize
          base_dir (envs i))) with
    | .error e => .error e
    | .ok results =>
      let filtered := results.filter (fun r => !r.file_name.isEmpty)
      if cancel paths.length && filtered.isEmpty then
        .error "Classification cancelled by user"
      else
        .ok ⟨filtered.length, paths.length, "", filtered⟩

/-- Every item of the batch yields an `Ok` result. -/
theorem process_item_is_ok (cancelled : Bool) (path : String)
    (min_confidence : ℚ) (organize : Bool) (base_dir : String)
    (env : ItemEnv) :
    ∃ r, process_item cancelled path min_confidence organize base_dir env =
      .ok r :=
  ⟨_, rfl⟩

/-- Collecting a list of `Ok` results succeeds with one entry per item. -/
theorem collect_results_all_ok (l : List (Except String ClassifyResult))
    (h : ∀ x ∈ l, ∃ r, x = .ok r) :
    ∃ rs, collect_results l = .ok rs ∧ rs.length = l.length := by
  induction l with
  | nil => exact ⟨[], rfl, rfl⟩
  | cons x rest ih =>
    obtain ⟨r, hr⟩ := h x (List.mem_cons_self x rest)
    subst hr
    obtain ⟨rs, hrs, hlen⟩ := ih (fun y hy => h y (List.mem_cons_of_mem _ hy))
    refine ⟨r :: rs, ?_, by simp [hlen]⟩
    simp [collect_results, hrs]

/-- C2: an item whose preprocessing failed, whose session slot was
observed empty, or whose inference call failed (device removal included)
still yields an `Ok` result with an empty prediction list; and for any
batch, the collected result covers every item and the only error the
whole call can produce is the cancellation error — a per-item failure
never aborts the batch. -/
theorem per_item_failure_contained :
    (∀ (path : String) (minc : ℚ) (org : Bool) (base : String)
        (env : ItemEnv),
      ((∃ m, env.outcome = .preprocess_err m) ∨ env.outcome = .no_session ∨
        (∃ m, env.outcome = .infer_err m)) →
      process_item false path minc org base env =
        .ok ⟨file_name_of path, path, [], none⟩) ∧
    (∀ (paths : List String) (cancel : Nat → Bool) (envs : Nat → ItemEnv)
        (minc : ℚ) (org : Bool) (base : String),
      (∃ rs, collect_results ((List.range paths.length).map (fun i =>
          process_item (cancel i) (paths.getD i "") minc org base
            (envs i))) = .ok rs ∧ rs.length = paths.length) ∧
      (∀ e, classify_images true paths cancel envs minc org base =
          .error e → e = "Classification cancelled by user")) := by
  constructor
  · intro path minc org base env hfail
    rcases hfail with ⟨m, hm⟩ | hm | ⟨m, hm⟩ <;>
      simp [process_item, process_item_result, hm]
  · intro paths cancel envs minc org base
    have hcol := collect_results_all_ok
      ((List.range paths.length).map (fun i =>
        process_item (cancel i) (paths.getD i "") minc org base (envs i)))
      (by
        intro x hx
        obtain ⟨i, _, hix⟩ := List.mem_map.mp hx
        obtain ⟨r, hr⟩ := process_item_is_ok (cancel i) (paths.getD i "")
          minc org base (envs i)
        exact ⟨r, by rw [← hix, hr]⟩)
    obtain ⟨rs, hrs, hlen⟩ := hcol
    refine ⟨⟨rs, hrs, by simpa using hlen⟩, ?_⟩
    intro e he
    by_cases h0 : paths.length = 0
    · simp [classify_images, h0] at he
    · simp only [classify_images, Bool.true_eq_false, reduceIte, h0,
        if_false, hrs] at he
      split_ifs at he with hcond
      · exact ((Except.error.injEq _ _).mp he).symm

/-- C2 witness: a three-item batch whose first item fails preprocessing,
whose second hits an inference failure with the device-removal signature
and whose third succeeds, is fully collected and the call does not
error. -/
theorem per_item_failure_contained_witness :
    process_item false "a/b.jpg" 0 false ""
        ⟨.infer_err "Inference failed: DeviceRemoved", true, true⟩ =
      .ok ⟨"b.jpg", "a/b.jpg", [], none⟩ ∧
    (∀ e, classify_images true ["a/x.jpg", "a/y.jpg", "a/z.jpg"]
        (fun _ => false)
        (fun i => if i = 0 then ⟨.preprocess_err "bad", true, true⟩
          else if i = 1 then
            ⟨.infer_err "Inference failed: DeviceRemoved", true, true⟩
          else ⟨.ok [⟨"cat", 1⟩], true, true⟩) 0 false "" = .error e →
      e = "Classification cancelled by user") := by
  have h := per_item_failure_contained
  constructor
  · have h1 := h.1 "a/b.jpg" 0 false ""
      ⟨.infer_err "Inference failed: DeviceRemoved", true, true⟩
      (Or.inr (Or.inr ⟨"Inference failed: DeviceRemoved", rfl⟩))
    rw [h1]
    rfl
  · exact (h.2 ["a/x.jpg", "a/y.jpg", "a/z.jpg"] (fun _ => false)
      (fun i => if i = 0 then ⟨.preprocess_err "bad", true, true⟩
        else if i = 1 then
          ⟨.infer_err "Inference failed: DeviceRemoved", true, true⟩
        else ⟨.ok [⟨"cat", 1⟩], true, true⟩) 0 false "").2

/-- Collecting a mapped list of `Ok` payloads yields the mapped payloads. -/
theorem collect_results_map_ok {α : Type} (l : List α)
    (g : α → ClassifyResult) :
    collect_results (l.map (fun i => .ok (g i))) = .ok (l.map g) := by
  induction l with
  | nil => rfl
  | cons x rest ih => simp [collect_results, ih]

/-- C3: during a `classify_images` call over a non-empty folder in which
the cooperative cancellation flag (monotone once set) is observed set by
some item: if the very first item already observed it (zero items
completed), the call returns the cancellation error; if the first item
ran (at least one completed), the call returns success and the result
count is positive but strictly less than the item count — skipped items
are excluded. -/
theorem classify_cancel_midway (paths : List String) (cancel : Nat → Bool)
    (envs : Nat → ItemEnv) (minc : ℚ) (org : Bool) (base : String)
    (hne : 0 < paths.length)
    (hmono : ∀ i j, i ≤ j → cancel i = true → cancel j = true)
    (hset : ∃ i, i < paths.length ∧ cancel i = true)
    (hnames : ∀ p ∈ paths, ¬(file_name_of p).isEmpty = true) :
    (cancel 0 = true →
      classify_images true paths cancel envs minc org base =
        .error "Classification cancelled by user") ∧
    (cancel 0 = false →
      ∃ pr, classify_images true paths cancel envs minc org base = .ok pr ∧
        0 < pr.current ∧ pr.current < pr.total ∧
        pr.total = paths.length) := by
  have h0 : ¬paths.length = 0 := Nat.pos_iff_ne_zero.mp hne
  set G : Nat → ClassifyResult := fun i =>
    process_item_result (cancel i) (paths.getD i "") minc org base (envs i)
    with hG
  have hcol : collect_results ((List.range paths.length).map (fun i =>
      process_item (cancel i) (paths.getD i "") minc org base (envs i))) =
      .ok ((List.range paths.length).map G) :=
    collect_results_map_ok (List.range paths.length) G
  constructor
  · intro hc0
    have hall : ∀ i, cancel i = true := fun i => hmono 0 i (Nat.zero_le i) hc0
    have hGsent : ∀ i, G i = ⟨"", "", [], none⟩ := by
      intro i
      simp [hG, process_item_result, hall i]
    have hfil : ((List.range paths.length).map G).filter
        (fun r => !r.file_name.isEmpty) = [] := by
      rw [List.filter_eq_nil_iff]
      intro r hr
      obtain ⟨i, _, hi⟩ := List.mem_map.mp hr
      rw [← hi, hGsent i]
      decide
    simp only [classify_images, Bool.true_eq_false, reduceIte, h0,
      if_false, hcol, hfil]
    simp [hall paths.length]
  · intro hc0
    have hmem0 : paths.getD 0 "" ∈ paths := by
      rw [List.getD_eq_getElem paths "" hne]
      exact List.getElem_mem hne
    have hG0name : (G 0).file_name = file_name_of (paths.getD 0 "") := by
      simp only [hG, process_item_result, hc0, Bool.false_eq_true, reduceIte]
    have hG0mem : G 0 ∈ (List.range paths.length).map G :=
      List.mem_map.mpr ⟨0, List.mem_range.mpr hne, rfl⟩
    have hG0fil : G 0 ∈ ((List.range paths.length).map G).filter
        (fun r => !r.file_name.isEmpty) := by
      rw [List.mem_filter]
      refine ⟨hG0mem, ?_⟩
      rw [hG0name]
      simpa using hnames _ hmem0
    have hpos : 0 < (((List.range paths.length).map G).filter
        (fun r => !r.file_name.isEmpty)).length :=
      List.length_pos_of_mem hG0fil
    have hlt : (((List.range paths.length).map G).filter
        (fun r => !r.file_name.isEmpty)).length < paths.length := by
      obtain ⟨i0, hi0, hci0⟩ := hset
      have hsent : G i0 = ⟨"", "", [], none⟩ := by
        simp [hG, process_item_result, hci0]
      have hx : ∃ x ∈ (List.range paths.length).map G,
          ¬(fun r : ClassifyResult => !r.file_name.isEmpty) x = true :=
        ⟨G i0, List.mem_map.mpr ⟨i0, List.mem_range.mpr hi0, rfl⟩,
          by rw [hsent]; decide⟩
      have := List.length_filter_lt_length_iff_exists.mpr hx
      simpa using this
    have hnonempty : (((List.range paths.length).map G).filter
        (fun r => !r.file_name.isEmpty)).isEmpty = false := by
      rw [List.isEmpty_eq_false_iff_exists_mem]
      exact ⟨G 0, hG0fil⟩
    refine ⟨⟨(((List.range paths.length).map G).filter
        (fun r => !r.file_name.isEmpty)).length, paths.length, "",
        ((List.range paths.length).map G).filter
          (fun r => !r.file_name.isEmpty)⟩, ?_, hpos, hlt, rfl⟩
    simp only [classify_images, Bool.true_eq_false, reduceIte, h0,
      if_false, hcol, hnonempty, Bool.and_false]
    rfl

/-- C3 witness: a two-item batch whose flag turns on at item 1 returns
success with 1 of 2 results; the same batch with the flag on from item 0
returns the cancellation error. -/
theorem classify_cancel_midway_witness :
    (∃ pr, classify_images true ["a/x.jpg", "a/y.jpg"]
        (fun i => decide (1 ≤ i)) (fun _ => ⟨.ok [⟨"cat", 1⟩], true, true⟩)
        0 false "" = .ok pr ∧ 0 < pr.current ∧ pr.current < pr.total ∧
        pr.total = 2) ∧
    classify_images true ["a/x.jpg", "a/y.jpg"] (fun _ => true)
        (fun _ => ⟨.ok [⟨"cat", 1⟩], true, true⟩) 0 false "" =
      .error "Classification cancelled by user" := by
  constructor
  · exact (classify_cancel_midway ["a/x.jpg", "a/y.jpg"]
      (fun i => decide (1 ≤ i)) (fun _ => ⟨.ok [⟨"cat", 1⟩], true, true⟩)
      0 false "" (by decide)
      (fun i j hij hi => by
        simp only [decide_eq_true_eq] at hi ⊢
        omega)
      ⟨1, by decide, by decide⟩ (by decide)).2 (by decide)
  · exact (classify_cancel_midway ["a/x.jpg", "a/y.jpg"] (fun _ => true)
      (fun _ => ⟨.ok [⟨"cat", 1⟩], true, true⟩) 0 false "" (by decide)
      (fun i j hij hi => rfl) ⟨0, by decide, rfl⟩ (by decide)).1 rfl

/-- One row of the `photos` table (`src-tauri/src/services/db.rs`). -/
structure PhotoRow where
  id : Int
  path : String
  size : Int
  modified : Int
  width : Option Nat
  height : Option Nat
deriving DecidableEq, Repr

/-- The state of `Database` that the embedding claims touch: the `photos`
table, the two `vec_meta` rows, and the `vec_photos` vec0 virtual table
(`none` when the table has not been created).  Embedding components are
modelled as rationals. -/
structure Db where
  photos : List PhotoRow
  stored_model : Option String
  stored_dim : Option String
  vec_photos : Option (List (Int × List ℚ))
deriving DecidableEq, Repr

/-- `Database::ensure_vec_table` (db.rs lines 82-130): compare the stored
signature with `(model_type, dim.to_string())`; when either differs, drop
and recreate the (now empty) vector table and rewrite both metadata rows;
otherwise change nothing. -/
def ensure_vec_table (db : Db) (dim : Nat) (model_type : String) : Db :=
  let needs_recreate : Bool :=
    !(db.stored_model == some model_type) ||
      !(db.stored_dim == some (toString dim))
  if needs_recreate then
    { db with
        vec_photos := some [],
        stored_model := some model_type,
        stored_dim := some (toString dim) }
  else db

/-- `Database::set_embedding` (db.rs lines 133-141): `INSERT OR REPLACE`
into `vec_photos`; fails when the virtual table does not exist. -/
def set_embedding (db : Db) (photo_id : Int) (embedding : List ℚ) :
    Except String Db :=
  match db.vec_photos with
  | none => .error "no such table: vec_photos"
  | some rows =>
    let rows2 :=
      (rows.filter (fun r => !(r.1 == photo_id))) ++ [(photo_id, embedding)]
    .ok { db with vec_photos := some rows2 }

/-- `Database::has_embedding` (db.rs lines 176-184): `COUNT(*) > 0` over
the rows with this `photo_id`; fails when the virtual table is absent. -/
def has_embedding (db : Db) (photo_id : Int) : Except String Bool :=
  match db.vec_photos with
  | none => .error "no such table: vec_photos"
  | some rows =>
    .ok (decide (0 < (rows.filter (fun r => r.1 == photo_id)).length))

/-- C4: `ensure_vec_table(d, t)` with a stored signature already equal to
`(t, toString d)` is a no-op leaving every stored vector intact; with any
differing dimension or tag it drops and recreates the vector table, after
which `has_embedding` is false for every photo id. -/
theorem ensure_vec_table_signature (db : Db) (dim : Nat)
    (model_type : String) :
    (db.stored_model = some model_type ∧
        db.stored_dim = some (toString dim) →
      ensure_vec_table db dim model_type = db) ∧
    (¬(db.stored_model = some model_type ∧
        db.stored_dim = some (toString dim)) →
      ∀ id, has_embedding (ensure_vec_table db dim model_type) id =
        .ok false) := by
  constructor
  · intro ⟨h1, h2⟩
    simp [ensure_vec_table, h1, h2]
  · intro hne id
    have hrec : (!(db.stored_model == some model_type) ||
        !(db.stored_dim == some (toString dim))) = true := by
      rcases not_and_or.mp hne with h | h <;> simp [h]
    simp [ensure_vec_table, hrec, has_embedding]

/-- C4 witness, mirroring the spec's rebuild scenario: five photos
embedded under tag "A" and dimension 10; `ensure(20, "B")` makes
`has_embedding` false for all five, while a repeated `ensure(10, "A")`
beforehand would have left the database untouched. -/
theorem ensure_vec_table_signature_witness :
    (let db0 : Db := ⟨[], some "A", some "10",
        some [(1, [0]), (2, [0]), (3, [0]), (4, [0]), (5, [0])]⟩
     ensure_vec_table db0 10 "A" = db0 ∧
     (∀ id, id ∈ [(1 : Int), 2, 3, 4, 5] →
        has_embedding (ensure_vec_table db0 20 "B") id = .ok false)) := by
  constructor
  · exact (ensure_vec_table_signature _ 10 "A").1 ⟨rfl, rfl⟩
  · intro id _
    exact (ensure_vec_table_signature _ 20 "B").2 (by decide) id

/-- One returned row of `find_similar_by_embedding`
(db.rs lines 188-243): `(photo_id, path, size, modified, width, height,
distance)`, in that order. -/
structure SimilarRow where
  photo_id : Int
  path : String
  size : Int
  modified : Int
  width : Option Nat
  height : Option Nat
  distance : ℚ
deriving DecidableEq, Repr

/-- `SELECT embedding FROM vec_photos WHERE photo_id = ?1`. -/
def lookup_embedding (rows : List (Int × List ℚ)) (photo_id : Int) :
    Option (List ℚ) :=
  (rows.find? (fun r => r.1 == photo_id)).map (fun r => r.2)

/-- The vec0 KNN subquery `WHERE v.embedding MATCH ?1 AND k = ?2`: each
stored row is scored by the engine's distance metric (cosine distance for
this table; the metric itself lives in the sqlite-vec engine and is a
parameter `dist` here), sorted ascending and truncated to the `k`
nearest candidates. -/
def knn_candidates (dist : List ℚ → List ℚ → ℚ)
    (rows : List (Int × List ℚ)) (q : List ℚ) (k : Nat) :
    List (Int × ℚ) :=
  ((rows.map (fun r => (r.1, dist q r.2))).mergeSort
    (fun a b => decide (a.2 ≤ b.2))).take k

/-- The SQL `p.path LIKE ?4` filter with pattern `folder || \x7b`-free
`"%"` suffix (db.rs line 196): a prefix match on the path. -/
def path_starts_with (folder path : String) : Bool :=
  folder.data.isPrefixOf path.data

/-- `Database::find_similar_by_embedding` (db.rs lines 188-243): fetch
the reference embedding, run the fixed-`k` KNN subquery, join on
`photos` (whose `id` is the primary key), apply the outer filters
(`photo_id != ref`, `path LIKE folder || %` — a prefix match — and
`distance <= max_distance`) and order by ascending distance. -/
def find_similar_by_embedding (dist : List ℚ → List ℚ → ℚ) (db : Db)
    (photo_id : Int) (folder : String) (max_distance : ℚ) (limit : Nat) :
    Except String (List SimilarRow) :=
  match db.vec_photos with
  | none => .error "no such table: vec_photos"
  | some rows =>
    match lookup_embedding rows photo_id with
    | none => .error "Query returned no rows"
    | some q =>
      let sub := knn_candidates dist rows q limit
      let joined := sub.filterMap (fun c =>
        (db.photos.find? (fun p => p.id == c.1)).map (fun p => (c, p)))
      let filtered := joined.filter (fun cp =>
        !(cp.1.1 == photo_id) && path_starts_with folder cp.2.path &&
          decide (cp.1.2 ≤ max_distance))
      let ordered := filtered.mergeSort (fun a b => decide (a.1.2 ≤ b.1.2))
      .ok (ordered.map (fun cp =>
        ⟨cp.1.1, cp.2.path, cp.2.size, cp.2.modified, cp.2.width,
          cp.2.height, cp.1.2⟩))

/-- C5: every successful `find_similar_by_embedding` answer excludes the
reference id, only contains paths starting with the folder, only
contains distances at most `max_distance`, and is ordered by
non-decreasing distance. -/
theorem find_similar_filters_and_orders (dist : List ℚ → List ℚ → ℚ)
    (db : Db) (photo_id : Int) (folder : String) (max_distance : ℚ)
    (limit : Nat) (res : List SimilarRow)
    (h : find_similar_by_embedding dist db photo_id folder max_distance
      limit = .ok res) :
    (∀ r ∈ res, r.photo_id ≠ photo_id ∧
      path_starts_with folder r.path = true ∧
      r.distance ≤ max_distance) ∧
    res.Pairwise (fun a b => a.distance ≤ b.distance) := by
  unfold find_similar_by_embedding at h
  split at h
  · exact absurd h (by simp)
  · rename_i rows hv
    split at h
    · exact absurd h (by simp)
    · rename_i q hq
      simp only [Except.ok.injEq] at h
      subst h
      constructor
      · intro r hr
        obtain ⟨cp, hcp, hmap⟩ := List.mem_map.mp hr
        have hmem : cp ∈ (knn_candidates dist rows q limit).filterMap
            (fun c => (db.photos.find? (fun p => p.id == c.1)).map
              (fun p => (c, p))) ∧
            (!(cp.1.1 == photo_id) && path_starts_with folder cp.2.path &&
              decide (cp.1.2 ≤ max_distance)) = true :=
          List.mem_filter.mp (List.mem_mergeSort.mp hcp)
        have hb := hmem.2
        simp only [Bool.and_eq_true, Bool.not_eq_eq_eq_not, Bool.not_true,
          beq_eq_false_iff_ne, ne_eq, decide_eq_true_eq] at hb
        rw [← hmap]
        exact ⟨hb.1.1, hb.1.2, hb.2⟩
      · refine List.Pairwise.map _ (fun a b hab => hab) ?_
        have hsorted := @List.sorted_mergeSort ((Int × ℚ) × PhotoRow)
          (fun a b => decide (a.1.2 ≤ b.1.2))
          (fun a b c hab hbc => by
            simp only [decide_eq_true_eq] at *
            exact le_trans hab hbc)
          (fun a b => by
            simp only [Bool.or_eq_true, decide_eq_true_eq]
            exact le_total a.1.2 b.1.2)
          (((knn_candidates dist rows q limit).filterMap (fun c =>
            (db.photos.find? (fun p => p.id == c.1)).map
              (fun p => (c, p)))).filter (fun cp =>
            !(cp.1.1 == photo_id) && path_starts_with folder cp.2.path &&
              decide (cp.1.2 ≤ max_distance)))
        exact hsorted.imp (fun hab => by
          simpa using hab)

/-- C5 witness, mirroring the spec's KNN scenario: five stored
embeddings, `k = 3`, `max_distance = 2/5`; with L1 distance as the
engine metric (squared euclidean), the reference (id 1) is excluded, the out-of-folder
row (id 5) and the rows outside the candidate pool are dropped, and the
two surviving rows come back in ascending distance order, both within
the bound. -/
theorem find_similar_filters_and_orders_witness :
    find_similar_by_embedding
        (fun q v => ((q.zip v).map (fun p => (p.1 - p.2) * (p.1 - p.2))).sum)
        ⟨[⟨1, "f/a", 1, 0, none, none⟩, ⟨2, "f/b", 1, 0, none, none⟩,
          ⟨3, "f/c", 1, 0, none, none⟩, ⟨4, "f/d", 1, 0, none, none⟩,
          ⟨5, "g/e", 1, 0, none, none⟩], some "A", some "2",
          some [(1, [0, 0]), (2, [0, (3 : ℚ)/10]), (3, [0, (1 : ℚ)/10]),
            (4, [2, 2]), (5, [0, (1 : ℚ)/5])]⟩
        1 "f/" ((2 : ℚ)/5) 3 =
      .ok [⟨3, "f/c", 1, 0, none, none, (1 : ℚ)/100⟩] ∧
    (∀ r ∈ [(⟨3, "f/c", 1, 0, none, none, (1 : ℚ)/100⟩ : SimilarRow)],
      r.photo_id ≠ 1 ∧ path_starts_with "f/" r.path = true ∧
      r.distance ≤ (2 : ℚ)/5) := by
  have heq : find_similar_by_embedding
      (fun q v => ((q.zip v).map (fun p => (p.1 - p.2) * (p.1 - p.2))).sum)
      ⟨[⟨1, "f/a", 1, 0, none, none⟩, ⟨2, "f/b", 1, 0, none, none⟩,
        ⟨3, "f/c", 1, 0, none, none⟩, ⟨4, "f/d", 1, 0, none, none⟩,
        ⟨5, "g/e", 1, 0, none, none⟩], some "A", some "2",
        some [(1, [0, 0]), (2, [0, (3 : ℚ)/10]), (3, [0, (1 : ℚ)/10]),
          (4, [2, 2]), (5, [0, (1 : ℚ)/5])]⟩
      1 "f/" ((2 : ℚ)/5) 3 =
      .ok [⟨3, "f/c", 1, 0, none, none, (1 : ℚ)/100⟩] := by
    simp only [find_similar_by_embedding, lookup_embedding, knn_candidates,
      path_starts_with, List.mergeSort, List.merge]
    norm_num [List.mergeSort, List.merge, List.filterMap, List.find?,
      List.filter, List.isPrefixOf,
      show (((3 : Int) == 1) = false) from rfl,
      show (((5 : Int) == 1) = false) from rfl,
      show (('f' == 'g') = false) from rfl]
  exact ⟨heq, fun r hr =>
    (find_similar_filters_and_orders _ _ 1 "f/" ((2 : ℚ)/5) 3 _ heq).1 r hr⟩

/-- A prediction as produced by the inference engine
(`src-tauri/src/services/classifier/inference.rs`); confidences here are
modelled as reals because the embedding claim involves a square root. -/
structure RealPrediction where
  class_name : String
  confidence : ℝ

/-- `logits.iter().map(|x| x * x).sum::<f32>().sqrt()`
(inference.rs line 115). -/
noncomputable def l2_norm (xs : List ℝ) : ℝ :=
  Real.sqrt ((xs.map (fun x => x * x)).sum)

/-- The post-processing of `run_inference_with_model` (inference.rs lines
113-152) applied to the extracted output logits: the L2-normalised
embedding (computed from the raw logits, before softmax; left unchanged
when the norm is zero), the numerically-stable softmax, the stable
descending sort, and the clamped top-k selection.  The source seeds the
running maximum with negative infinity, which for a non-empty vector
equals the list maximum used here; for the empty vector no probabilities
are produced either way.  After the output tensor has been extracted the
source has no further failure point: this function is total, so the
zero-norm branch is not an error. -/
noncomputable def run_inference_post (logits : List ℝ)
    (labels : List String) (top_k : Nat) :
    List RealPrediction × List ℝ :=
  let embedding :=
    if 0 < l2_norm logits then logits.map (fun x => x / l2_norm logits)
    else logits
  let max_logit := match logits with | [] => 0 | x :: xs => xs.foldl max x
  let exp_sum := (logits.map (fun x => Real.exp (x - max_logit))).sum
  let probabilities :=
    logits.map (fun x => Real.exp (x - max_logit) / exp_sum)
  let indexed := probabilities.enum
  let sorted := indexed.mergeSort (fun a b => decide (b.2 ≤ a.2))
  let k2 := min top_k sorted.length
  let predictions := (sorted.take k2).map (fun iv =>
    ⟨(labels.get? iv.1).getD ("class_" ++ toString iv.1), iv.2⟩)
  (predictions, embedding)

/-- A sum of real squares is non-negative. -/
theorem sum_squares_nonneg (xs : List ℝ) :
    0 ≤ (xs.map (fun x => x * x)).sum :=
  List.sum_nonneg (fun x hx => by
    obtain ⟨y, _, rfl⟩ := List.mem_map.mp hx
    exact mul_self_nonneg y)

/-- Scaling a vector by a positive `c` whose square is the vector's sum
of squares yields a unit vector. -/
theorem l2_norm_scale (xs : List ℝ) (c : ℝ) (hc : 0 < c)
    (hcc : c * c = (xs.map (fun x => x * x)).sum) :
    l2_norm (xs.map (fun x => x / c)) = 1 := by
  unfold l2_norm
  rw [List.map_map]
  have hf : ((fun x => x * x) ∘ fun x : ℝ => x / c) =
      fun x : ℝ => (x * x) * (c * c)⁻¹ := by
    funext x
    simp only [Function.comp_apply, div_mul_div_comm, div_eq_mul_inv,
      mul_inv]
    ring
  rw [hf, List.sum_map_mul_right, ← hcc,
    mul_inv_cancel₀ ((mul_pos hc hc).ne'), Real.sqrt_one]

/-- C6: when the raw logit vector has positive L2 norm, the embedding
returned by the inference post-processing equals the logits divided by
that norm — hence has L2 norm exactly 1 — and when the norm is zero the
logits come back unchanged (and the function is total: no error). -/
theorem embedding_is_normalized_logits (logits : List ℝ)
    (labels : List String) (top_k : Nat) :
    (0 < l2_norm logits →
      (run_inference_post logits labels top_k).2 =
        logits.map (fun x => x / l2_norm logits) ∧
      l2_norm (run_inference_post logits labels top_k).2 = 1) ∧
    (l2_norm logits = 0 →
      (run_inference_post logits labels top_k).2 = logits) := by
  have hsnd : (run_inference_post logits labels top_k).2 =
      if 0 < l2_norm logits then logits.map (fun x => x / l2_norm logits)
      else logits := rfl
  constructor
  · intro h
    have he : (run_inference_post logits labels top_k).2 =
        logits.map (fun x => x / l2_norm logits) := by
      rw [hsnd, if_pos h]
    refine ⟨he, ?_⟩
    rw [he]
    exact l2_norm_scale logits (l2_norm logits) h
      (Real.mul_self_sqrt (sum_squares_nonneg logits))
  · intro h
    rw [hsnd, if_neg (by rw [h]; exact lt_irrefl 0)]

/-- C6 witness: logits `[3, 4]` have norm 5 and come back as
`[3/5, 4/5]`; the zero vector has norm 0 and comes back unchanged. -/
theorem embedding_is_normalized_logits_witness :
    0 < l2_norm [(3 : ℝ), 4] ∧
    (run_inference_post [(3 : ℝ), 4] ["cat", "dog"] 2).2 =
      [3 / 5, 4 / 5] ∧
    (run_inference_post [(0 : ℝ)] ["cat"] 1).2 = [0] := by
  have h5 : l2_norm [(3 : ℝ), 4] = 5 := by
    unfold l2_norm
    norm_num
    rw [show (25 : ℝ) = 5 ^ 2 by norm_num, Real.sqrt_sq (by norm_num)]
  have hpos : 0 < l2_norm [(3 : ℝ), 4] := by rw [h5]; norm_num
  have h0 : l2_norm [(0 : ℝ)] = 0 := by
    unfold l2_norm
    norm_num
  refine ⟨hpos, ?_, ?_⟩
  · have h := (embedding_is_normalized_logits [(3 : ℝ), 4]
      ["cat", "dog"] 2).1 hpos
    rw [h.1, h5]
    norm_num
  · exact (embedding_is_normalized_logits [(0 : ℝ)] ["cat"] 1).2 h0

end PhotoLense
